import Mathlib

/-!
A verification development for the Panchang (Hindu calendar) computation engine.
Real-valued JavaScript arithmetic is embedded over `ℚ`; JS `Date` values are
embedded as rational timestamps in milliseconds; JS `%` (truncating remainder)
is embedded via truncation toward zero.
-/

/-- Truncation toward zero on the rationals, the rounding used by the
JavaScript `%` operator and `Date` constructor. -/
def jsTrunc (q : ℚ) : ℤ := if 0 ≤ q then ⌊q⌋ else ⌈q⌉

/-- The JavaScript `%` operator on numbers: remainder with the sign of the
dividend, `x - m * trunc (x / m)`. -/
def jsMod (x m : ℚ) : ℚ := x - m * jsTrunc (x / m)

/-- Embeds `Panchang.normalizeAngle` (src/panchang/src/panchang/index.ts:254):
`angle % 360`, adding 360 if the remainder is negative.  The identical helper
`normalizeAngle` imported by planetary.ts from `../utils/index` (not in the
sources) follows the same spec sentence and is embedded by this same
function. -/
def normalizeAngle (angle : ℚ) : ℚ :=
  let normalized := jsMod angle 360
  if normalized < 0 then normalized + 360 else normalized

lemma neg_lt_jsMod360 (x : ℚ) : -360 < jsMod x 360 := by
  unfold jsMod jsTrunc
  by_cases h : (0:ℚ) ≤ x / 360
  · rw [if_pos h]
    have h1 : ((⌊x / 360⌋ : ℚ)) ≤ x / 360 := Int.floor_le _
    have h2 : (360:ℚ) * (x / 360) = x := by ring_nf
    nlinarith
  · rw [if_neg h]
    have h1 : ((⌈x / 360⌉ : ℚ)) < x / 360 + 1 := Int.ceil_lt_add_one _
    have h2 : (360:ℚ) * (x / 360) = x := by ring_nf
    nlinarith

lemma jsMod360_lt (x : ℚ) : jsMod x 360 < 360 := by
  unfold jsMod jsTrunc
  by_cases h : (0:ℚ) ≤ x / 360
  · rw [if_pos h]
    have h1 : x / 360 < (⌊x / 360⌋ : ℚ) + 1 := Int.lt_floor_add_one _
    have h2 : (360:ℚ) * (x / 360) = x := by ring_nf
    nlinarith
  · rw [if_neg h]
    have h1 : x / 360 ≤ ((⌈x / 360⌉ : ℚ)) := Int.le_ceil _
    have h2 : (360:ℚ) * (x / 360) = x := by ring_nf
    nlinarith

lemma normalizeAngle_nonneg (x : ℚ) : 0 ≤ normalizeAngle x := by
  unfold normalizeAngle
  by_cases h : jsMod x 360 < 0
  · rw [if_pos h]
    have := neg_lt_jsMod360 x
    linarith
  · rw [if_neg h]
    linarith [not_lt.mp h]

lemma normalizeAngle_lt_360 (x : ℚ) : normalizeAngle x < 360 := by
  unfold normalizeAngle
  by_cases h : jsMod x 360 < 0
  · rw [if_pos h]; linarith
  · rw [if_neg h]
    exact jsMod360_lt x

lemma normalizeAngle_eq_self {x : ℚ} (h0 : 0 ≤ x) (h1 : x < 360) :
    normalizeAngle x = x := by
  have hq0 : (0:ℚ) ≤ x / 360 := by positivity
  have hfl : ⌊x / 360⌋ = 0 := by
    rw [Int.floor_eq_zero_iff]
    constructor
    · exact hq0
    · rw [div_lt_one (by norm_num : (0:ℚ) < 360)] at *
      linarith
  unfold normalizeAngle jsMod jsTrunc
  rw [if_pos hq0, hfl]
  simp
  linarith

/-- C9: the angle normalization of `Panchang.normalizeAngle` always lands in
[0, 360) and is idempotent. -/
theorem normalizeAngle_range_and_idempotent (x : ℚ) :
    (0 ≤ normalizeAngle x ∧ normalizeAngle x < 360) ∧
      normalizeAngle (normalizeAngle x) = normalizeAngle x :=
  ⟨⟨normalizeAngle_nonneg x, normalizeAngle_lt_360 x⟩,
    normalizeAngle_eq_self (normalizeAngle_nonneg x) (normalizeAngle_lt_360 x)⟩

/-- The 15 tithi display names (src/panchang/src/calculations/planetary.ts:202). -/
def tithi_names : List String :=
  ["Pratipada", "Dwitiya", "Tritiya", "Chaturthi", "Panchami", "Shashthi",
   "Saptami", "Ashtami", "Navami", "Dashami", "Ekadashi", "Dwadashi",
   "Trayodashi", "Chaturdashi", "Purnima/Amavasya"]

/-- Result record of `Planetary.calculateTithi`.  A JS name lookup that falls
outside the table would produce `undefined`, embedded as `none`. -/
structure TithiInfo where
  tithi : ℤ
  name : Option String
  percentage : ℚ
  isWaxing : Bool
deriving DecidableEq, Repr

/-- JS array indexing `l[i]`: `undefined` (here `none`) outside the bounds,
including at negative indices. -/
def jsIndex (l : List String) (i : ℤ) : Option String :=
  if i < 0 then none else l.get? i.toNat

/-- Embeds `Planetary.calculateTithi` (src/panchang/src/calculations/planetary.ts:201). -/
def calculateTithi (sunLongitude moonLongitude : ℚ) : TithiInfo :=
  let elongation := normalizeAngle (moonLongitude - sunLongitude)
  let tithi_length : ℚ := 12
  let tithi_number : ℤ := ⌊elongation / tithi_length⌋ + 1
  let remainder := jsMod elongation tithi_length
  let percentage := remainder / tithi_length * 100
  if tithi_number ≤ 15 then
    let final_tithi := tithi_number
    let tithi_name :=
      if final_tithi = 15 then some "Purnima" else jsIndex tithi_names (final_tithi - 1)
    { tithi := final_tithi, name := tithi_name, percentage := percentage, isWaxing := true }
  else
    let final_tithi := tithi_number - 15
    let tithi_name :=
      if final_tithi = 15 then some "Amavasya" else jsIndex tithi_names (final_tithi - 1)
    { tithi := final_tithi, name := tithi_name, percentage := percentage, isWaxing := false }

/-- The 27 yoga names (src/panchang/src/calculations/planetary.ts:256). -/
def yoga_names : List String :=
  ["Vishkumbha", "Preeti", "Ayushman", "Saubhagya", "Shobhana", "Atiganda",
   "Sukarman", "Dhriti", "Shoola", "Ganda", "Vriddhi", "Dhruva",
   "Vyaghata", "Harshana", "Vajra", "Siddhi", "Vyatipata", "Variyan",
   "Parigha", "Shiva", "Siddha", "Sadhya", "Shubha", "Shukla",
   "Brahma", "Indra", "Vaidhriti"]

/-- The clamped 0-based yoga index as a function of the normalized sum
(src/panchang/src/calculations/planetary.ts:270-273):
`max 0 (min 26 ⌊sum / (360/27)⌋)`. -/
def yogaIndexFromSum (sum : ℚ) : ℤ :=
  max 0 (min 26 ⌊sum / (360 / 27)⌋)

structure YogaInfo where
  yoga : ℤ
  name : Option String
deriving DecidableEq, Repr

/-- Embeds `Planetary.calculateYoga` (src/panchang/src/calculations/planetary.ts:255). -/
def calculateYoga (sunLongitude moonLongitude : ℚ) : YogaInfo :=
  let sum := normalizeAngle (sunLongitude + moonLongitude)
  let yoga_index := yogaIndexFromSum sum
  { yoga := yoga_index + 1, name := jsIndex yoga_names yoga_index }

/-- The 11 karana names: 7 movable then 4 fixed
(src/panchang/src/calculations/planetary.ts:282). -/
def karana_names : List String :=
  ["Bava", "Balava", "Kaulava", "Taitila", "Gara", "Vanija", "Vishti",
   "Shakuni", "Chatushpada", "Naga", "Kimstughna"]

/-- The karana serial number and clamped name index as a function of the
cycle index, the branch structure of
src/panchang/src/calculations/planetary.ts:297-312.  JS `%` is the
truncating remainder `Int.tmod`. -/
def karanaFromCycleIndex (karana_index : ℤ) : ℤ × ℤ :=
  let pair :=
    if karana_index < 57 then
      (karana_index + 1, karana_index.tmod 7)
    else
      let fixed_index := min 3 (karana_index - 57)
      (58 + fixed_index, 7 + fixed_index)
  (pair.1, min (max 0 pair.2) ((karana_names.length : ℤ) - 1))

structure KaranaInfo where
  karana : ℤ
  name : Option String
deriving DecidableEq, Repr

/-- The karana cycle index `⌊normalize(moon - sun) / 6⌋`
(src/panchang/src/calculations/planetary.ts:288-290). -/
def karanaCycleIndex (sunLongitude moonLongitude : ℚ) : ℤ :=
  ⌊normalizeAngle (moonLongitude - sunLongitude) / 6⌋

/-- Embeds `Planetary.calculateKarana` (src/panchang/src/calculations/planetary.ts:281). -/
def calculateKarana (sunLongitude moonLongitude : ℚ) : KaranaInfo :=
  let p := karanaFromCycleIndex (karanaCycleIndex sunLongitude moonLongitude)
  { karana := p.1, name := jsIndex karana_names p.2 }

/-- The 27 nakshatra table entries: name, ruler, deity, symbol
(src/panchang/src/calculations/planetary.ts:63). -/
def NAKSHATRAS : List (String × String × String × String) :=
  [("Ashwini", "Ketu", "Ashwini Kumaras", "Horse's head"),
   ("Bharani", "Venus", "Yama", "Yoni"),
   ("Krittika", "Sun", "Agni", "Razor/flame"),
   ("Rohini", "Moon", "Brahma", "Cart/chariot"),
   ("Mrigashira", "Mars", "Soma", "Deer's head"),
   ("Ardra", "Rahu", "Rudra", "Teardrop"),
   ("Punarvasu", "Jupiter", "Aditi", "Quiver of arrows"),
   ("Pushya", "Saturn", "Brihaspati", "Cow's udder"),
   ("Ashlesha", "Mercury", "Nagas", "Serpent"),
   ("Magha", "Ketu", "Pitrs", "Throne"),
   ("Purva Phalguni", "Venus", "Bhaga", "Hammock"),
   ("Uttara Phalguni", "Sun", "Aryaman", "Bed"),
   ("Hasta", "Moon", "Savitar", "Hand"),
   ("Chitra", "Mars", "Vishvakarma", "Pearl"),
   ("Swati", "Rahu", "Vayu", "Sword"),
   ("Vishakha", "Jupiter", "Indragni", "Triumphal arch"),
   ("Anuradha", "Saturn", "Mitra", "Lotus"),
   ("Jyeshtha", "Mercury", "Indra", "Earring"),
   ("Mula", "Ketu", "Nirriti", "Bunch of roots"),
   ("Purva Ashadha", "Venus", "Apah", "Fan"),
   ("Uttara Ashadha", "Sun", "Vishvedevas", "Elephant tusk"),
   ("Shravana", "Moon", "Vishnu", "Ear"),
   ("Dhanishtha", "Mars", "Vasus", "Drum"),
   ("Shatabhisha", "Rahu", "Varuna", "Circle"),
   ("Purva Bhadrapada", "Jupiter", "Ajaikapat", "Front legs of bed"),
   ("Uttara Bhadrapada", "Saturn", "Ahirbudhnya", "Back legs of bed"),
   ("Revati", "Mercury", "Pushan", "Fish")]

structure NakshatraInfo where
  nakshatra : ℤ
  name : String
  pada : ℤ
  ruler : String
  deity : String
  symbol : String
  degree : ℚ
deriving DecidableEq, Repr

/-- Embeds `Planetary.calculateNakshatra`
(src/panchang/src/calculations/planetary.ts:376).  The source reads
`NAKSHATRAS[nakshatra_number]` without clamping and then dereferences its
fields; an out-of-range access in JS yields `undefined` and dereferencing it
throws, embedded as `none`. -/
def calculateNakshatra (longitude : ℚ) : Option NakshatraInfo :=
  let nakshatra_size : ℚ := 360 / 27
  let nakshatra_number : ℤ := ⌊longitude / nakshatra_size⌋
  let degree_in_nakshatra := jsMod longitude nakshatra_size
  let pada : ℤ := ⌊degree_in_nakshatra / (nakshatra_size / 4)⌋ + 1
  let entry :=
    if nakshatra_number < 0 then none else NAKSHATRAS.get? nakshatra_number.toNat
  match entry with
  | none => none
  | some d =>
      some { nakshatra := nakshatra_number + 1, name := d.1, pada := pada,
             ruler := d.2.1, deity := d.2.2.1, symbol := d.2.2.2,
             degree := degree_in_nakshatra }

/-- The 12 western rashi names (src/panchang/src/panchang/index.ts:487). -/
def rashiNames : List String :=
  ["Aries", "Taurus", "Gemini", "Cancer", "Leo", "Virgo", "Libra",
   "Scorpio", "Sagittarius", "Capricorn", "Aquarius", "Pisces"]

/-- Embeds `Panchang.calculateSunsign` (src/panchang/src/panchang/index.ts:486):
an unclamped 12-entry table lookup at `⌊sunLongitude / 30⌋`. -/
def calculateSunsign (sunLongitude : ℚ) : Option String :=
  jsIndex rashiNames ⌊sunLongitude / 30⌋

/-- Embeds `Panchang.calculatePaksha` (src/panchang/src/panchang/index.ts:471). -/
def calculatePaksha (moonLongitude sunLongitude : ℚ) : String :=
  if normalizeAngle (moonLongitude - sunLongitude) < 180 then "Shukla Paksha"
  else "Krishna Paksha"

/-- Embeds `toTimeZone` (src/panchang/src/panchang/index.ts:15).  The consumed
`Intl.DateTimeFormat` capability is modelled by the zone's UTC offset in
minutes at the instant: `formatToParts` yields the wall-clock fields of
`epoch + offset` at whole-second precision, and `Date.UTC` reassembles those
fields as a UTC epoch.  Timestamps are rational milliseconds. -/
def toTimeZone (date : ℚ) (offsetMinutes : ℤ) : ℚ :=
  (1000 : ℚ) * ⌊(date + (offsetMinutes : ℚ) * 60000) / 1000⌋

/-- The `adjust` closure of `Panchang.calculatePanchang`
(src/panchang/src/panchang/index.ts:196): localize a present instant, keep
an absent one absent. -/
def adjust (offsetMinutes : ℤ) (dt : Option ℚ) : Option ℚ :=
  dt.map (fun t => toTimeZone t offsetMinutes)

/-- Weekday tables of `Panchang.calculateKalam`
(src/panchang/src/panchang/index.ts:586,590,594), indexed by
`date.getDay()` (0 = Sunday .. 6 = Saturday). -/
def rahuKaalPeriod : List ℤ := [4, 1, 6, 3, 2, 5, 0]

def gulikaiKaalPeriod : List ℤ := [6, 5, 4, 3, 2, 1, 0]

def yamagandaKaalPeriod : List ℤ := [5, 4, 3, 2, 1, 0, 6]

/-- The three kalam windows, each a (start, end) pair of timestamps. -/
structure KalamRaw where
  rahu : ℚ × ℚ
  gulikai : ℚ × ℚ
  yamaganda : ℚ × ℚ
deriving DecidableEq, Repr

/-- The body of `Panchang.calculateKalam` once sunrise and sunset are
present (src/panchang/src/panchang/index.ts:583-598); `day` is
`date.getDay()`. -/
def kalamRaw (day : Fin 7) (sunrise sunset : ℚ) : KalamRaw :=
  let dayLength := sunset - sunrise
  let oneEighth := dayLength / 8
  let rahuStart := sunrise + (rahuKaalPeriod.getD day.val 0 : ℤ) * oneEighth
  let gulikaiStart := sunrise + (gulikaiKaalPeriod.getD day.val 0 : ℤ) * oneEighth
  let yamagandaStart := sunrise + (yamagandaKaalPeriod.getD day.val 0 : ℤ) * oneEighth
  { rahu := (rahuStart, rahuStart + oneEighth),
    gulikai := (gulikaiStart, gulikaiStart + oneEighth),
    yamaganda := (yamagandaStart, yamagandaStart + oneEighth) }

/-- Embeds `Panchang.calculateKalam` (src/panchang/src/panchang/index.ts:581):
returns the empty object (here `none`) when sunrise or sunset is absent. -/
def calculateKalam (day : Fin 7) (sunrise sunset : Option ℚ) : Option KalamRaw :=
  match sunrise, sunset with
  | some rise, some sett => some (kalamRaw day rise sett)
  | _, _ => none

/-- The muhurat windows computed by `Panchang.calculateMuhurat` once sunrise
and sunset are present (src/panchang/src/panchang/index.ts:562-578). -/
structure MuhuratRaw where
  abhijita : ℚ × ℚ
  amritKalam : List (ℚ × ℚ)
  sarvarthaSiddhiYoga : String
  amritSiddhiYoga : ℚ × ℚ
  vijaya : ℚ × ℚ
  godhuli : ℚ × ℚ
  sayahnaSandhya : ℚ × ℚ
  nishita : ℚ × ℚ
  brahma : ℚ × ℚ
  pratahSandhya : ℚ × ℚ
deriving DecidableEq, Repr

/-- Embeds `Panchang.calculateMuhurat` (src/panchang/src/panchang/index.ts:560):
returns the empty object (here `none`) when sunrise or sunset is absent. -/
def calculateMuhurat (sunrise sunset : Option ℚ) : Option MuhuratRaw :=
  match sunrise, sunset with
  | some rise, some sett =>
      let dayLength := sett - rise
      let nightLength := 24 * 60 * 60 * 1000 - dayLength
      let dayMuhurat := dayLength / 15
      let nightMuhurat := nightLength / 15
      some
        { abhijita := (rise + 7 * dayMuhurat, rise + 8 * dayMuhurat),
          amritKalam := [(rise + 6 * dayMuhurat, rise + 7 * dayMuhurat)],
          sarvarthaSiddhiYoga := "Ahoratri",
          amritSiddhiYoga := (rise + 2 * dayMuhurat, rise + 3 * dayMuhurat),
          vijaya := (rise + 11 * dayMuhurat, rise + 12 * dayMuhurat),
          godhuli := (sett - 24 * 60 * 1000, sett + 24 * 60 * 1000),
          sayahnaSandhya := (sett - 12 * 60 * 1000, sett + 12 * 60 * 1000),
          nishita := (sett + 7 * nightMuhurat, sett + 8 * nightMuhurat),
          brahma := (rise - 2 * nightMuhurat, rise - nightMuhurat),
          pratahSandhya := (rise - nightMuhurat, rise) }
  | _, _ => none

/-- The muhurat block of the assembled Panchang record
(src/panchang/src/panchang/index.ts:228-242): each bound is adjusted
separately and an absent raw window yields absent bounds. -/
structure MuhuratOut where
  abhijita : Option ℚ × Option ℚ
  amritKalam : List (Option ℚ × Option ℚ)
  sarvarthaSiddhiYoga : Option String
  amritSiddhiYoga : Option ℚ × Option ℚ
  vijaya : Option ℚ × Option ℚ
  godhuli : Option ℚ × Option ℚ
  sayahnaSandhya : Option ℚ × Option ℚ
  nishita : Option ℚ × Option ℚ
  brahma : Option ℚ × Option ℚ
  pratahSandhya : Option ℚ × Option ℚ
deriving DecidableEq, Repr

/-- Embeds the muhurat assembly in `Panchang.calculatePanchang`
(src/panchang/src/panchang/index.ts:228-242). -/
def assembleMuhurat (off : ℤ) (m : Option MuhuratRaw) : MuhuratOut :=
  { abhijita := (adjust off (m.map (·.abhijita.1)), adjust off (m.map (·.abhijita.2))),
    amritKalam :=
      ((m.map (·.amritKalam)).getD []).map
        (fun p => (adjust off (some p.1), adjust off (some p.2))),
    sarvarthaSiddhiYoga := m.map (·.sarvarthaSiddhiYoga),
    amritSiddhiYoga :=
      (adjust off (m.map (·.amritSiddhiYoga.1)), adjust off (m.map (·.amritSiddhiYoga.2))),
    vijaya := (adjust off (m.map (·.vijaya.1)), adjust off (m.map (·.vijaya.2))),
    godhuli := (adjust off (m.map (·.godhuli.1)), adjust off (m.map (·.godhuli.2))),
    sayahnaSandhya :=
      (adjust off (m.map (·.sayahnaSandhya.1)), adjust off (m.map (·.sayahnaSandhya.2))),
    nishita := (adjust off (m.map (·.nishita.1)), adjust off (m.map (·.nishita.2))),
    brahma := (adjust off (m.map (·.brahma.1)), adjust off (m.map (·.brahma.2))),
    pratahSandhya :=
      (adjust off (m.map (·.pratahSandhya.1)), adjust off (m.map (·.pratahSandhya.2))) }

/-- The kalam block of the assembled Panchang record
(src/panchang/src/panchang/index.ts:243-250). -/
structure KalamOut where
  rahu : Option ℚ × Option ℚ
  gulikai : Option ℚ × Option ℚ
  yamaganda : Option ℚ × Option ℚ
deriving DecidableEq, Repr

/-- Embeds the kalam assembly in `Panchang.calculatePanchang`
(src/panchang/src/panchang/index.ts:243-250). -/
def assembleKalam (off : ℤ) (k : Option KalamRaw) : KalamOut :=
  { rahu := (adjust off (k.map (·.rahu.1)), adjust off (k.map (·.rahu.2))),
    gulikai := (adjust off (k.map (·.gulikai.1)), adjust off (k.map (·.gulikai.2))),
    yamaganda := (adjust off (k.map (·.yamaganda.1)), adjust off (k.map (·.yamaganda.2))) }

/-- Weekday-to-section table of `calculateYamaGandam`
(src/lib/yamghantKalam.js:29-37), keyed by the Luxon weekday
(1 = Monday .. 7 = Sunday). -/
def yamaGandamDayConfig (dayOfWeek : ℤ) : ℤ :=
  if dayOfWeek = 1 then 4
  else if dayOfWeek = 2 then 3
  else if dayOfWeek = 3 then 2
  else if dayOfWeek = 4 then 1
  else if dayOfWeek = 5 then 7
  else if dayOfWeek = 6 then 6
  else 5

/-- Embeds `calculateYamaGandam` (src/lib/yamghantKalam.js:9-53) on a
minutes-from-midnight timeline: the guard throw is `none`; the section
start adds `(section - 1) * sectionDuration` minutes to sunrise and the end
adds a hard-coded 90 minutes to the start. -/
def calculateYamaGandam (dayOfWeek : ℤ) (sunRiseTime sunSetTime : ℚ) :
    Option (ℚ × ℚ) :=
  if dayOfWeek < 1 ∨ 7 < dayOfWeek then none
  else
    let duration := sunSetTime - sunRiseTime
    let sectionDuration := duration / 8
    let sectionNum := yamaGandamDayConfig dayOfWeek
    let sectionStartTime := sunRiseTime + ((sectionNum : ℚ) - 1) * sectionDuration
    some (sectionStartTime, sectionStartTime + 90)

/-- The 1-based nakshatra number at a (pre-ayanamsa-subtracted) Moon
longitude, as recomputed inside `Panchang.calculateNakshatraEndTime`
(src/panchang/src/panchang/index.ts:377-386). -/
def nakshatraNumAt (moonLon : ℚ) : ℤ :=
  ⌊normalizeAngle moonLon / (360 / 27)⌋ + 1

/-- UTC midnight of the day containing an epoch-millisecond instant,
as built with `Date.UTC(getUTCFullYear, getUTCMonth, getUTCDate)`
(src/panchang/src/panchang/index.ts:362-367). -/
def startOfDayUTC (date : ℤ) : ℤ := date - date.emod 86400000

/-- The instant sampled at a given hour of the 48-hour sweep
(src/panchang/src/panchang/index.ts:373). -/
def sampleTime (date : ℤ) (hour : ℕ) : ℤ :=
  startOfDayUTC date + (hour : ℤ) * 3600000

/-- The transition test of the sweep loop
(src/panchang/src/panchang/index.ts:389): the sampled mansion index differs
from the one at the input instant and the sample is strictly later.
`f` models the oracle `calculatePosition(·,'Moon').longitude - ayanamsa(·)`. -/
def transAt (f : ℤ → ℚ) (date : ℤ) (hour : ℕ) : Prop :=
  nakshatraNumAt (f (sampleTime date hour)) ≠ nakshatraNumAt (f date) ∧
    date < sampleTime date hour

instance (f : ℤ → ℚ) (date : ℤ) (hour : ℕ) : Decidable (transAt f date hour) :=
  inferInstanceAs (Decidable (_ ∧ _))

/-- A bounded ascending for-loop with early exit: try `body` at `hour`,
`hour+1`, ... for `fuel` iterations, returning the first hit. -/
def sweepAux (body : ℕ → Option ℤ) : ℕ → ℕ → Option ℤ
  | _, 0 => none
  | hour, fuel + 1 =>
      match body hour with
      | some t => some t
      | none => sweepAux body (hour + 1) fuel

/-- Embeds `Panchang.calculateNakshatraEndTime`
(src/panchang/src/panchang/index.ts:357-399): hourly samples from UTC
midnight for 48 iterations, returning the first sample strictly after
`date` whose mansion index differs, else `none`.  The embedding is total,
matching the loop's hard 48-step bound. -/
def calculateNakshatraEndTime (f : ℤ → ℚ) (date : ℤ) : Option ℤ :=
  sweepAux
    (fun hour => if transAt f date hour then some (sampleTime date hour) else none)
    0 48

lemma jsMod_of_nonneg (x m : ℚ) (hx : 0 ≤ x) (hm : 0 < m) :
    jsMod x m = x - m * ⌊x / m⌋ := by
  unfold jsMod jsTrunc
  rw [if_pos (div_nonneg hx hm.le)]

lemma floor_div_nonneg {e arc : ℚ} (he : 0 ≤ e) (harc : 0 < arc) :
    0 ≤ ⌊e / arc⌋ :=
  Int.floor_nonneg.mpr (div_nonneg he harc.le)

lemma floor_div_lt {e arc : ℚ} (c : ℤ) (harc : 0 < arc) (hlt : e < c * arc) :
    ⌊e / arc⌋ < c := by
  apply Int.floor_lt.mpr
  rw [div_lt_iff harc]
  exact hlt

/-- C1: for every longitude pair, the tithi raw index `⌊elongation/12⌋ + 1`
lies in [1,30], the percentage is `(elongation mod 12)/12*100`, the display
index lies in [1,15], waxing holds exactly when the raw index is at most 15,
the display names at raw indices 15 and 30 are Purnima and Amavasya, and the
Sun=10°, Moon=100° scenario yields raw index 8, waxing, percentage 50. -/
theorem calculateTithi_c1 (s m : ℚ) :
    (1 ≤ ⌊normalizeAngle (m - s) / 12⌋ + 1 ∧ ⌊normalizeAngle (m - s) / 12⌋ + 1 ≤ 30) ∧
    (calculateTithi s m).percentage =
      (normalizeAngle (m - s) - 12 * ⌊normalizeAngle (m - s) / 12⌋) / 12 * 100 ∧
    (1 ≤ (calculateTithi s m).tithi ∧ (calculateTithi s m).tithi ≤ 15) ∧
    ((calculateTithi s m).isWaxing = true ↔ ⌊normalizeAngle (m - s) / 12⌋ + 1 ≤ 15) ∧
    (⌊normalizeAngle (m - s) / 12⌋ + 1 = 15 →
      (calculateTithi s m).name = some "Purnima" ∧ (calculateTithi s m).isWaxing = true) ∧
    (⌊normalizeAngle (m - s) / 12⌋ + 1 = 30 →
      (calculateTithi s m).name = some "Amavasya" ∧ (calculateTithi s m).isWaxing = false) ∧
    calculateTithi 10 100 =
      { tithi := 8, name := some "Ashtami", percentage := 50, isWaxing := true } := by
  have he0 := normalizeAngle_nonneg (m - s)
  have he1 := normalizeAngle_lt_360 (m - s)
  have h0 : 0 ≤ ⌊normalizeAngle (m - s) / 12⌋ := floor_div_nonneg he0 (by norm_num)
  have h29 : ⌊normalizeAngle (m - s) / 12⌋ < 30 :=
    floor_div_lt 30 (by norm_num) (by push_cast; linarith)
  have hper : jsMod (normalizeAngle (m - s)) 12 =
      normalizeAngle (m - s) - 12 * ⌊normalizeAngle (m - s) / 12⌋ :=
    jsMod_of_nonneg _ _ he0 (by norm_num)
  refine ⟨⟨by omega, by omega⟩, ?_, ?_, ?_, ?_, ?_, ?_⟩
  · simp only [calculateTithi]
    split_ifs <;> simp [hper]
  · simp only [calculateTithi]
    split_ifs with h <;> simp <;> omega
  · simp only [calculateTithi]
    split_ifs with h <;> simp [h]
  · intro hraw
    simp only [calculateTithi]
    rw [if_pos (by omega : ⌊normalizeAngle (m - s) / 12⌋ + 1 ≤ 15), if_pos hraw]
    exact ⟨rfl, rfl⟩
  · intro hraw
    simp only [calculateTithi]
    rw [if_neg (by omega : ¬ ⌊normalizeAngle (m - s) / 12⌋ + 1 ≤ 15),
      if_pos (by omega : ⌊normalizeAngle (m - s) / 12⌋ + 1 - 15 = 15)]
    exact ⟨rfl, rfl⟩
  · simp only [calculateTithi, normalizeAngle, jsMod, jsTrunc, jsIndex, tithi_names]
    norm_num
    rfl

/-- Witness for C1 at Sun=0°, Moon=170°: raw index 15, name Purnima, waxing. -/
theorem calculateTithi_c1_witness :
    ⌊normalizeAngle (170 - 0) / 12⌋ + 1 = 15 ∧
      (calculateTithi 0 170).name = some "Purnima" ∧
      (calculateTithi 0 170).isWaxing = true := by
  have hraw : ⌊normalizeAngle (170 - 0) / 12⌋ + 1 = 15 := by
    simp only [normalizeAngle, jsMod, jsTrunc]
    norm_num
  exact ⟨hraw, (calculateTithi_c1 0 170).2.2.2.2.1 hraw⟩

/-- C10: the paksha computation and the tithi waxing flag agree: Shukla Paksha holds
exactly when `calculateTithi` reports a waxing moon, both reducing to
`normalize(moon - sun) < 180`. -/
theorem paksha_c10 (s m : ℚ) :
    calculatePaksha m s = "Shukla Paksha" ↔ (calculateTithi s m).isWaxing = true := by
  have he0 := normalizeAngle_nonneg (m - s)
  have he1 := normalizeAngle_lt_360 (m - s)
  have key : ⌊normalizeAngle (m - s) / 12⌋ + 1 ≤ 15 ↔ normalizeAngle (m - s) < 180 := by
    constructor
    · intro h
      have : normalizeAngle (m - s) / 12 < 15 := by
        have := Int.lt_floor_add_one (normalizeAngle (m - s) / 12)
        have h14 : (⌊normalizeAngle (m - s) / 12⌋ : ℚ) ≤ 14 := by exact_mod_cast by omega
        linarith
      linarith [(div_lt_iff (by norm_num : (0:ℚ) < 12)).mp this]
    · intro h
      have : ⌊normalizeAngle (m - s) / 12⌋ < 15 :=
        floor_div_lt 15 (by norm_num) (by push_cast; linarith)
      omega
  unfold calculatePaksha
  split_ifs with hp
  · simp only [calculateTithi]
    rw [if_pos (key.mpr hp)]
    simp
  · have hno : ¬ (⌊normalizeAngle (m - s) / 12⌋ + 1 ≤ 15) := fun h => hp (key.mp h)
    simp only [calculateTithi]
    rw [if_neg hno]
    constructor
    · intro h
      exact absurd h (by decide)
    · intro h
      simp at h

/-- C2: the karana cycle index lies in [0,59] and `calculateKarana` is the
karana rule applied to it; the rule gives name index `cycleIndex mod 7` and
serial `cycleIndex + 1` for cycle indices below 57, name index
`7 + min 3 (cycleIndex - 57)` in {7,8,9,10} (strictly increasing) and serial
`58 + min 3 (cycleIndex - 57)` for 57..59, and clamps any cycle index of 60
or beyond to the last fixed entry (name index 10). -/
theorem calculateKarana_c2 (s m : ℚ) (j : ℤ) (hj : 0 ≤ j) :
    (0 ≤ karanaCycleIndex s m ∧ karanaCycleIndex s m ≤ 59 ∧
      calculateKarana s m =
        { karana := (karanaFromCycleIndex (karanaCycleIndex s m)).1,
          name := jsIndex karana_names (karanaFromCycleIndex (karanaCycleIndex s m)).2 }) ∧
    (j < 57 →
      (karanaFromCycleIndex j).2 = j % 7 ∧ 0 ≤ j % 7 ∧ j % 7 ≤ 6 ∧
        (karanaFromCycleIndex j).1 = j + 1) ∧
    (57 ≤ j → j ≤ 59 →
      (karanaFromCycleIndex j).2 = 7 + min 3 (j - 57) ∧
        (karanaFromCycleIndex j).1 = 58 + min 3 (j - 57) ∧
        7 ≤ (karanaFromCycleIndex j).2 ∧ (karanaFromCycleIndex j).2 ≤ 10) ∧
    (57 ≤ j → j + 1 ≤ 59 →
      (karanaFromCycleIndex j).2 < (karanaFromCycleIndex (j + 1)).2) ∧
    (60 ≤ j → (karanaFromCycleIndex j).2 = 10) := by
  have he0 := normalizeAngle_nonneg (m - s)
  have he1 := normalizeAngle_lt_360 (m - s)
  have hcyc0 : 0 ≤ karanaCycleIndex s m := floor_div_nonneg he0 (by norm_num)
  have hcyc59 : karanaCycleIndex s m ≤ 59 := by
    have : karanaCycleIndex s m < 60 :=
      floor_div_lt 60 (by norm_num) (by push_cast; linarith)
    omega
  have hmod0 : 0 ≤ j % 7 := Int.emod_nonneg j (by norm_num)
  have hmod6 : j % 7 < 7 := Int.emod_lt_of_pos j (by norm_num)
  have htmod : ∀ k : ℤ, 0 ≤ k → k.tmod 7 = k % 7 := by
    intro k hk
    rw [Int.tmod_eq_emod hk (by norm_num)]
  have hclamp : ∀ v : ℤ, 0 ≤ v → v ≤ 10 →
      min (max 0 v) ((karana_names.length : ℤ) - 1) = v := by
    intro v h0 h1
    have hlen : (karana_names.length : ℤ) = 11 := by norm_num [karana_names]
    rw [hlen, max_eq_right h0, min_eq_left (by omega)]
  refine ⟨⟨hcyc0, hcyc59, rfl⟩, ?_, ?_, ?_, ?_⟩
  · intro hlt
    simp only [karanaFromCycleIndex]
    rw [if_pos hlt]
    dsimp only
    rw [htmod j hj, hclamp (j % 7) hmod0 (by omega)]
    exact ⟨rfl, hmod0, by omega, rfl⟩
  · intro h57 h59
    have hm : min 3 (j - 57) = j - 57 := min_eq_right (by omega)
    simp only [karanaFromCycleIndex]
    rw [if_neg (by omega : ¬ j < 57)]
    dsimp only
    rw [hm, hclamp (7 + (j - 57)) (by omega) (by omega)]
    omega
  · intro h57 h59
    have hm1 : min 3 (j - 57) = j - 57 := min_eq_right (by omega)
    have hm2 : min 3 (j + 1 - 57) = j + 1 - 57 := min_eq_right (by omega)
    simp only [karanaFromCycleIndex]
    rw [if_neg (by omega : ¬ j < 57), if_neg (by omega : ¬ j + 1 < 57)]
    dsimp only
    rw [hm1, hm2, hclamp (7 + (j - 57)) (by omega) (by omega),
      hclamp (7 + (j + 1 - 57)) (by omega) (by omega)]
    omega
  · intro h60
    have hm : min 3 (j - 57) = 3 := min_eq_left (by omega)
    simp only [karanaFromCycleIndex]
    rw [if_neg (by omega : ¬ j < 57)]
    dsimp only
    rw [hm, hclamp (7 + 3) (by omega) (by omega)]
    omega

/-- Witness for C2 at cycle index 58 (a fixed karana slot). -/
theorem calculateKarana_c2_witness :
    (karanaFromCycleIndex 58).2 = 7 + min 3 (58 - 57) ∧
      (karanaFromCycleIndex 58).1 = 58 + min 3 (58 - 57) ∧
      7 ≤ (karanaFromCycleIndex 58).2 ∧ (karanaFromCycleIndex 58).2 ≤ 10 :=
  (calculateKarana_c2 0 0 58 (by norm_num)).2.2.1 (by norm_num) (by norm_num)

/-- C6: the yoga index `clamp(⌊normalize(sun+moon)/(360/27)⌋, 0, 26) + 1`
always lies in [1,27], and the clamped index is monotone non-decreasing in
the normalized sum within one circle [0,360). -/
theorem calculateYoga_c6 (s m x y : ℚ) (hx : 0 ≤ x) (hxy : x ≤ y) (hy : y < 360) :
    ((calculateYoga s m).yoga = yogaIndexFromSum (normalizeAngle (s + m)) + 1 ∧
      1 ≤ (calculateYoga s m).yoga ∧ (calculateYoga s m).yoga ≤ 27) ∧
    yogaIndexFromSum x ≤ yogaIndexFromSum y := by
  constructor
  · refine ⟨rfl, ?_, ?_⟩
    · simp only [calculateYoga, yogaIndexFromSum]
      have : (0:ℤ) ≤ max 0 (min 26 ⌊normalizeAngle (s + m) / (360 / 27)⌋) := le_max_left _ _
      omega
    · simp only [calculateYoga, yogaIndexFromSum]
      have : max 0 (min 26 ⌊normalizeAngle (s + m) / (360 / 27)⌋) ≤ 26 :=
        max_le (by norm_num) (min_le_left _ _)
      omega
  · unfold yogaIndexFromSum
    have harc : (0:ℚ) < 360 / 27 := by norm_num
    have hfl : ⌊x / (360 / 27)⌋ ≤ ⌊y / (360 / 27)⌋ :=
      Int.floor_mono (by apply div_le_div_of_nonneg_right hxy harc.le)
    exact max_le_max le_rfl (min_le_min le_rfl hfl)

/-- Witness for C6 at sums 0 and 100 within one circle. -/
theorem calculateYoga_c6_witness :
    ((calculateYoga 0 0).yoga = yogaIndexFromSum (normalizeAngle (0 + 0)) + 1 ∧
      1 ≤ (calculateYoga 0 0).yoga ∧ (calculateYoga 0 0).yoga ≤ 27) ∧
    yogaIndexFromSum 0 ≤ yogaIndexFromSum 100 :=
  calculateYoga_c6 0 0 0 100 (by norm_num) (by norm_num) (by norm_num)

/-- C3 counterexample: localizing the epoch instant 0 into a zone with UTC
offset +330 minutes (e.g. Asia/Kolkata) yields a value that does not denote
the same absolute instant. -/
theorem toTimeZone_c3_counterexample : toTimeZone 0 330 ≠ 0 := by
  simp only [toTimeZone]
  norm_num

/-- C3 (amended): `toTimeZone` re-anchors the zone's wall-clock fields as
UTC: on second-aligned instants it shifts the epoch by the zone's UTC
offset, and it leaves the instant unchanged exactly when the offset is
zero.  The instants used for math are the unlocalized ones; only the
assembled outputs are localized. -/
theorem toTimeZone_c3_amended (t : ℚ) (off k : ℤ) (hk : t = 1000 * k) :
    toTimeZone t off = t + (off : ℚ) * 60000 ∧ (toTimeZone t off = t ↔ off = 0) := by
  subst hk
  have hfl : ((1000 * k : ℚ) + (off : ℚ) * 60000) / 1000 = ((k + 60 * off : ℤ) : ℚ) := by
    push_cast
    ring
  have hval : toTimeZone (1000 * k) off = (1000 : ℚ) * ((k + 60 * off : ℤ) : ℚ) := by
    simp only [toTimeZone]
    rw [hfl, Int.floor_intCast]
  constructor
  · rw [hval]
    push_cast
    ring
  · rw [hval]
    constructor
    · intro h
      push_cast at h
      have hoff : (off : ℚ) = 0 := by linarith
      exact_mod_cast hoff
    · intro h
      subst h
      push_cast
      ring

/-- Witness for C3 (amended) at instant 1000 ms and offset +330 minutes. -/
theorem toTimeZone_c3_amended_witness :
    toTimeZone 1000 330 = 1000 + (330 : ℚ) * 60000 ∧
      (toTimeZone 1000 330 = 1000 ↔ (330 : ℤ) = 0) := by
  have h := toTimeZone_c3_amended 1000 330 1 (by norm_num)
  exact_mod_cast h

/-- C4 counterexample: at longitude 360 the unclamped lunar-mansion and
sun-sign lookups read outside their tables (an undefined result). -/
theorem lookup_c4_counterexample :
    calculateNakshatra 360 = none ∧ calculateSunsign 360 = none := by
  constructor
  · simp only [calculateNakshatra, jsMod, jsTrunc, NAKSHATRAS]
    norm_num
    rfl
  · simp only [calculateSunsign, jsIndex, rashiNames]
    norm_num

/-- C4 (amended): the karana (and yoga) lookups clamp their index for every
input, while the lunar-mansion and sun-sign lookups are unclamped but stay
in bounds for every normalized longitude in [0,360); out-of-range
longitudes make them read out of bounds. -/
theorem lookup_c4_amended (l s m : ℚ) (j : ℤ) (h0 : 0 ≤ l) (h1 : l < 360) :
    calculateNakshatra l ≠ none ∧ calculateSunsign l ≠ none ∧
    0 ≤ (karanaFromCycleIndex j).2 ∧ (karanaFromCycleIndex j).2 ≤ 10 ∧
    (calculateKarana s m).name ≠ none ∧ (calculateYoga s m).name ≠ none := by
  have hjs : ∀ (L : List String) (i : ℤ), 0 ≤ i → i.toNat < L.length →
      jsIndex L i ≠ none := by
    intro L i hi hlen
    simp only [jsIndex]
    rw [if_neg (by omega), List.get?_eq_get hlen]
    simp
  have hkb : ∀ i : ℤ, 0 ≤ (karanaFromCycleIndex i).2 ∧ (karanaFromCycleIndex i).2 ≤ 10 := by
    intro i
    have hlen11 : (karana_names.length : ℤ) - 1 = 10 := by norm_num [karana_names]
    simp only [karanaFromCycleIndex]
    rw [hlen11]
    exact ⟨le_min (le_max_left _ _) (by norm_num), min_le_right _ _⟩
  have hyb : 0 ≤ yogaIndexFromSum (normalizeAngle (s + m)) ∧
      yogaIndexFromSum (normalizeAngle (s + m)) ≤ 26 := by
    unfold yogaIndexFromSum
    exact ⟨le_max_left _ _, max_le (by norm_num) (min_le_left _ _)⟩
  refine ⟨?_, ?_, (hkb j).1, (hkb j).2, ?_, ?_⟩
  · have hn0 : 0 ≤ ⌊l / (360 / 27)⌋ := floor_div_nonneg h0 (by norm_num)
    have hn1 : ⌊l / (360 / 27)⌋ < 27 :=
      floor_div_lt 27 (by norm_num) (by push_cast; norm_num; linarith)
    have hlen : ⌊l / (360 / 27)⌋.toNat < NAKSHATRAS.length := by
      have h27 : NAKSHATRAS.length = 27 := rfl
      omega
    simp only [calculateNakshatra]
    rw [if_neg (by omega : ¬ ⌊l / (360 / 27)⌋ < 0), List.get?_eq_get hlen]
    simp
  · have hn0 : 0 ≤ ⌊l / 30⌋ := floor_div_nonneg h0 (by norm_num)
    have hn1 : ⌊l / 30⌋ < 12 :=
      floor_div_lt 12 (by norm_num) (by push_cast; norm_num; linarith)
    apply hjs
    · exact hn0
    · have h12 : rashiNames.length = 12 := rfl
      omega
  · simp only [calculateKarana]
    apply hjs
    · exact (hkb _).1
    · have h11 : karana_names.length = 11 := rfl
      have := (hkb (karanaCycleIndex s m)).2
      have h0' := (hkb (karanaCycleIndex s m)).1
      omega
  · simp only [calculateYoga]
    apply hjs
    · exact hyb.1
    · have h27 : yoga_names.length = 27 := rfl
      have := hyb.2
      have := hyb.1
      omega

/-- Witness for C4 (amended) at the normalized longitude 100. -/
theorem lookup_c4_amended_witness :
    calculateNakshatra 100 ≠ none ∧ calculateSunsign 100 ≠ none ∧
    0 ≤ (karanaFromCycleIndex 0).2 ∧ (karanaFromCycleIndex 0).2 ≤ 10 ∧
    (calculateKarana 0 0).name ≠ none ∧ (calculateYoga 0 0).name ≠ none :=
  lookup_c4_amended 100 0 0 0 (by norm_num) (by norm_num)

/-- C5: in `Panchang.calculateKalam` every kalam window has width exactly
dayLength/8 and starts at sunrise plus the weekday table entry times
dayLength/8 (Rahu table [4,1,6,3,2,5,0]), and the 06:00/18:00 Sunday
scenario yields [12:00, 13:30]; but the standalone `calculateYamaGandam`
hard-codes a 90-minute end, so on a Sunday with sunrise 06:00 and sunset
20:00 it returns the window [13:00, 14:30] of width 90 minutes, not
dayLength/8 = 105 minutes. -/
theorem kalam_c5 (d : Fin 7) (rise sett : ℚ) :
    rahuKaalPeriod = [4, 1, 6, 3, 2, 5, 0] ∧
    ((kalamRaw d rise sett).rahu.2 - (kalamRaw d rise sett).rahu.1 = (sett - rise) / 8 ∧
      (kalamRaw d rise sett).gulikai.2 - (kalamRaw d rise sett).gulikai.1 = (sett - rise) / 8 ∧
      (kalamRaw d rise sett).yamaganda.2 - (kalamRaw d rise sett).yamaganda.1 =
        (sett - rise) / 8) ∧
    ((kalamRaw d rise sett).rahu.1 =
        rise + ((rahuKaalPeriod.getD d.val 0 : ℤ) : ℚ) * ((sett - rise) / 8) ∧
      (kalamRaw d rise sett).gulikai.1 =
        rise + ((gulikaiKaalPeriod.getD d.val 0 : ℤ) : ℚ) * ((sett - rise) / 8) ∧
      (kalamRaw d rise sett).yamaganda.1 =
        rise + ((yamagandaKaalPeriod.getD d.val 0 : ℤ) : ℚ) * ((sett - rise) / 8)) ∧
    (kalamRaw 0 21600000 64800000).rahu = (43200000, 48600000) ∧
    calculateYamaGandam 7 360 1200 = some (780, 870) ∧
    (870 - 780 : ℚ) = 90 ∧ (1200 - 360 : ℚ) / 8 = 105 := by
  refine ⟨rfl, ⟨?_, ?_, ?_⟩, ⟨?_, ?_, ?_⟩, ?_, ?_, by norm_num, by norm_num⟩
  · simp only [kalamRaw]
    ring
  · simp only [kalamRaw]
    ring
  · simp only [kalamRaw]
    ring
  · simp only [kalamRaw]
  · simp only [kalamRaw]
  · simp only [kalamRaw]
  · simp only [kalamRaw, rahuKaalPeriod]
    norm_num
  · simp only [calculateYamaGandam, yamaGandamDayConfig]
    norm_num

/-- C8: when sunrise or sunset is absent, every assembled muhurat and kalam
window in the Panchang record is absent (null bounds), never fabricated. -/
theorem windows_c8 (off : ℤ) (d : Fin 7) (sunrise sunset : Option ℚ)
    (h : sunrise = none ∨ sunset = none) :
    assembleMuhurat off (calculateMuhurat sunrise sunset) =
      { abhijita := (none, none), amritKalam := [], sarvarthaSiddhiYoga := none,
        amritSiddhiYoga := (none, none), vijaya := (none, none), godhuli := (none, none),
        sayahnaSandhya := (none, none), nishita := (none, none), brahma := (none, none),
        pratahSandhya := (none, none) } ∧
    assembleKalam off (calculateKalam d sunrise sunset) =
      { rahu := (none, none), gulikai := (none, none), yamaganda := (none, none) } := by
  have hm : calculateMuhurat sunrise sunset = none := by
    rcases h with h | h
    · subst h
      cases sunset <;> rfl
    · subst h
      cases sunrise <;> rfl
  have hk : calculateKalam d sunrise sunset = none := by
    rcases h with h | h
    · subst h
      cases sunset <;> rfl
    · subst h
      cases sunrise <;> rfl
  rw [hm, hk]
  exact ⟨rfl, rfl⟩

/-- Witness for C8: both sunrise and sunset absent. -/
theorem windows_c8_witness :
    assembleMuhurat 0 (calculateMuhurat none none) =
      { abhijita := (none, none), amritKalam := [], sarvarthaSiddhiYoga := none,
        amritSiddhiYoga := (none, none), vijaya := (none, none), godhuli := (none, none),
        sayahnaSandhya := (none, none), nishita := (none, none), brahma := (none, none),
        pratahSandhya := (none, none) } ∧
    assembleKalam 0 (calculateKalam 0 none none) =
      { rahu := (none, none), gulikai := (none, none), yamaganda := (none, none) } :=
  windows_c8 0 0 none none (Or.inl rfl)

lemma sweepAux_none_iff (body : ℕ → Option ℤ) :
    ∀ (fuel start : ℕ), sweepAux body start fuel = none ↔
      ∀ i : ℕ, start ≤ i → i < start + fuel → body i = none := by
  intro fuel
  induction fuel with
  | zero =>
      intro start
      simp only [sweepAux]
      constructor
      · intro _ i h1 h2
        exact absurd h2 (by omega)
      · intro _
        trivial
  | succ n ih =>
      intro start
      simp only [sweepAux]
      cases hb : body start with
      | some u =>
          dsimp only
          constructor
          · intro h
            exact Option.noConfusion h
          · intro h
            have hs := h start le_rfl (by omega)
            rw [hb] at hs
            exact Option.noConfusion hs
      | none =>
          dsimp only
          rw [ih (start + 1)]
          constructor
          · intro h i h1 h2
            rcases Nat.eq_or_lt_of_le h1 with rfl | hlt
            · exact hb
            · exact h i hlt (by omega)
          · intro h i h1 h2
            exact h i (by omega) (by omega)

lemma sweepAux_some_iff (body : ℕ → Option ℤ) :
    ∀ (fuel start : ℕ) (t : ℤ), sweepAux body start fuel = some t ↔
      ∃ i : ℕ, start ≤ i ∧ i < start + fuel ∧ body i = some t ∧
        ∀ j : ℕ, start ≤ j → j < i → body j = none := by
  intro fuel
  induction fuel with
  | zero =>
      intro start t
      simp only [sweepAux]
      constructor
      · intro h
        exact Option.noConfusion h
      · rintro ⟨i, h1, h2, _, _⟩
        exact absurd h2 (by omega)
  | succ n ih =>
      intro start t
      simp only [sweepAux]
      cases hb : body start with
      | some u =>
          dsimp only
          constructor
          · intro h
            refine ⟨start, le_rfl, by omega, ?_, ?_⟩
            · rw [hb]
              exact h
            · intro j h1 h2
              exact absurd h2 (by omega)
          · rintro ⟨i, h1, h2, h3, h4⟩
            rcases Nat.eq_or_lt_of_le h1 with rfl | hlt
            · rw [hb] at h3
              exact h3
            · have hs := h4 start le_rfl hlt
              rw [hb] at hs
              exact Option.noConfusion hs
      | none =>
          dsimp only
          rw [ih (start + 1) t]
          constructor
          · rintro ⟨i, h1, h2, h3, h4⟩
            refine ⟨i, by omega, by omega, h3, ?_⟩
            intro j hj1 hj2
            rcases Nat.eq_or_lt_of_le hj1 with rfl | hlt
            · exact hb
            · exact h4 j hlt hj2
          · rintro ⟨i, h1, h2, h3, h4⟩
            have hne : i ≠ start := by
              intro he
              rw [he, hb] at h3
              exact Option.noConfusion h3
            refine ⟨i, by omega, by omega, h3, ?_⟩
            intro j hj1 hj2
            exact h4 j (by omega) hj2

/-- C7: the lunar-mansion sweep samples hourly for at most 48 iterations
(it is total by construction, mirroring the loop's hard bound) and returns
`some t` exactly when `t` is the first sampled instant strictly after the
input whose mansion index differs from the one at the input, and `none`
exactly when no such sample exists within the 48-step horizon. -/
theorem nakshatraEndTime_c7 (f : ℤ → ℚ) (date : ℤ) :
    (calculateNakshatraEndTime f date = none ↔
      ∀ hour : ℕ, hour < 48 → ¬ transAt f date hour) ∧
    ∀ t : ℤ, calculateNakshatraEndTime f date = some t ↔
      ∃ hour : ℕ, hour < 48 ∧ t = sampleTime date hour ∧ transAt f date hour ∧
        ∀ h2 : ℕ, h2 < hour → ¬ transAt f date h2 := by
  have hbody : ∀ hour : ℕ,
      (if transAt f date hour then some (sampleTime date hour) else none) = none ↔
        ¬ transAt f date hour := by
    intro hour
    split_ifs with h <;> simp [h]
  constructor
  · rw [calculateNakshatraEndTime, sweepAux_none_iff]
    constructor
    · intro h hour hlt
      exact (hbody hour).mp (h hour (by omega) (by omega))
    · intro h i h1 h2
      exact (hbody i).mpr (h i (by omega))
  · intro t
    rw [calculateNakshatraEndTime, sweepAux_some_iff]
    constructor
    · rintro ⟨i, h1, h2, h3, h4⟩
      have hti : transAt f date i ∧ t = sampleTime date i := by
        by_cases hc : transAt f date i
        · rw [if_pos hc] at h3
          exact ⟨hc, (Option.some_inj.mp h3).symm⟩
        · rw [if_neg hc] at h3
          exact Option.noConfusion h3
      refine ⟨i, by omega, hti.2, hti.1, ?_⟩
      intro h2' hlt
      exact (hbody h2').mp (h4 h2' (by omega) hlt)
    · rintro ⟨hour, h1, h2, h3, h4⟩
      refine ⟨hour, by omega, by omega, ?_, ?_⟩
      · rw [if_pos h3, h2]
      · intro j hj1 hj2
        exact (hbody j).mpr (h4 j hj2)
